import Mathlib

/-!
Shallow embedding of `src-tauri/src/backend/claude_cli.rs` (ClaudeCodeMonitor).

The session/turn concurrency manager is embedded as pure state-passing
functions:

* the `active_turns` `HashMap<String, ActiveTurn>` becomes an association
  list `TurnMap` observed through `lookupTurn` (HashMap `insert` replaces,
  `remove` deletes — mirrored by `insertTurn` / `removeTurn`);
* an OS process handle (`Arc<Mutex<Child>>`) becomes a `Nat` identifier,
  and `Child::kill` becomes an explicit parameter
  `kill : Nat → Option IoErr` (`none` = `Ok(())`, `some e` = `Err(e)`),
  matching `std::io::Error` by its `kind` and display message;
* stateful methods return the operation result, the successor state, and
  the list of process handles a kill was attempted on, so "kills no
  process" is the emptiness of that list;
* writes to the persistent stdin become the list of strings written, with
  the fallible `write_all` an explicit parameter.
-/

/-- Mirror of the `std::io::ErrorKind` values this code inspects
(`ErrorKind::InvalidInput`, `ErrorKind::NotFound`) plus representatives for
the remaining kinds. -/
inductive ErrKind where
  | invalidInput
  | notFound
  | permissionDenied
  | other
deriving DecidableEq, Repr

/-- A `std::io::Error` as observed by this code: its kind and its
`to_string()` rendering. -/
structure IoErr where
  kind : ErrKind
  msg : String
deriving DecidableEq, Repr

/-- One in-flight turn: `ActiveTurn { turn_id: String, child: Arc<Mutex<Child>> }`
with the process handle abstracted to an identifier. -/
structure ActiveTurn where
  turn_id : String
  child : Nat
deriving DecidableEq, Repr

/-- The `active_turns: HashMap<String, ActiveTurn>` state, as an association
list observed through `lookupTurn`. -/
abbrev TurnMap := List (String × ActiveTurn)

/-- `HashMap::get` on the turn mapping. -/
def lookupTurn : TurnMap → String → Option ActiveTurn
  | [], _ => none
  | (k, v) :: rest, t => if k = t then some v else lookupTurn rest t

/-- `HashMap::remove` on the turn mapping (drops every pair stored under the
key; a well-formed map holds at most one). -/
def removeTurn : TurnMap → String → TurnMap
  | [], _ => []
  | (k, v) :: rest, t =>
      if k = t then removeTurn rest t else (k, v) :: removeTurn rest t

/-- `HashMap::insert` on the turn mapping: replaces any existing entry. -/
def insertTurn (m : TurnMap) (t : String) (v : ActiveTurn) : TurnMap :=
  (t, v) :: removeTurn m t

/-- `WorkspaceSession::track_turn`: inserts or overwrites the entry for
`thread_id`. -/
def track_turn (m : TurnMap) (thread_id turn_id : String) (child : Nat) : TurnMap :=
  insertTurn m thread_id { turn_id := turn_id, child := child }

/-- `WorkspaceSession::clear_turn`: removes the entry for `thread_id` only
when its stored `turn_id` matches. -/
def clear_turn (m : TurnMap) (thread_id turn_id : String) : TurnMap :=
  match lookupTurn m thread_id with
  | some activeTurn =>
      if activeTurn.turn_id = turn_id then removeTurn m thread_id else m
  | none => m

/-- `WorkspaceSession::interrupt_turn`. Returns the `Result<(), String>`,
the successor mapping, and the handles on which a kill was attempted.
Follows the source exactly: remove first; reinsert unchanged on a turn-id
mismatch; on a match kill the child, swallowing an
`ErrorKind::InvalidInput` failure and surfacing any other error's message. -/
def interrupt_turn (kill : Nat → Option IoErr) (m : TurnMap)
    (thread_id turn_id : String) :
    Except String Unit × TurnMap × List Nat :=
  let removed := lookupTurn m thread_id
  let m₁ := removeTurn m thread_id
  match removed with
  | none => (Except.ok (), m₁, [])
  | some activeTurn =>
      if activeTurn.turn_id ≠ turn_id then
        (Except.ok (), insertTurn m₁ thread_id activeTurn, [])
      else
        match kill activeTurn.child with
        | none => (Except.ok (), m₁, [activeTurn.child])
        | some err =>
            if err.kind = ErrKind.invalidInput then
              (Except.ok (), m₁, [activeTurn.child])
            else
              (Except.error err.msg, m₁, [activeTurn.child])

theorem lookupTurn_removeTurn (m : TurnMap) (t s : String) :
    lookupTurn (removeTurn m t) s = if s = t then none else lookupTurn m s := by
  induction m with
  | nil => simp [removeTurn, lookupTurn]
  | cons p rest ih =>
      obtain ⟨k, v⟩ := p
      by_cases hk : k = t
      · subst hk
        by_cases hs : s = k
        · subst hs
          simpa [removeTurn, lookupTurn] using ih
        · have hks : ¬ k = s := fun h => hs h.symm
          simp [removeTurn, lookupTurn, hs, hks, ih]
      · by_cases hks : k = s
        · subst hks
          simp [removeTurn, lookupTurn, hk]
        · simp [removeTurn, lookupTurn, hk, hks, ih]

theorem removeTurn_of_lookup_none (m : TurnMap) (t : String)
    (h : lookupTurn m t = none) : removeTurn m t = m := by
  induction m with
  | nil => rfl
  | cons p rest ih =>
      obtain ⟨k, v⟩ := p
      by_cases hk : k = t
      · simp [lookupTurn, hk] at h
      · simp [lookupTurn, hk] at h
        simp [removeTurn, hk, ih h]

theorem removeTurn_removeTurn (m : TurnMap) (t : String) :
    removeTurn (removeTurn m t) t = removeTurn m t := by
  induction m with
  | nil => rfl
  | cons p rest ih =>
      obtain ⟨k, v⟩ := p
      by_cases hk : k = t <;> simp [removeTurn, hk, ih]

/-! ### Persistent channel (stdin + persistent child) -/

/-- The persistent-channel part of `WorkspaceSession`: the optional stdin
handle and the optional persistent child handle, both abstracted to `Nat`
identifiers. -/
structure SessionState where
  stdin : Option Nat
  persistent_child : Option Nat
deriving DecidableEq, Repr

/-- `WorkspaceSession::has_persistent_session`: true iff stdin is installed. -/
def has_persistent_session (s : SessionState) : Bool :=
  s.stdin.isSome

/-- `WorkspaceSession::set_stdin`. -/
def set_stdin (s : SessionState) (h : Nat) : SessionState :=
  { s with stdin := some h }

/-- `WorkspaceSession::set_persistent_child`. -/
def set_persistent_child (s : SessionState) (h : Nat) : SessionState :=
  { s with persistent_child := some h }

/-- `WorkspaceSession::kill_persistent_session`. Returns the
`Result<(), String>`, the successor state, and the handles a kill was
attempted on. Mirrors the source order: best-effort flush (no state
effect), `take()` the child (clearing it), kill it and return early with
`?` on failure — leaving stdin untouched — and only then clear stdin. -/
def kill_persistent_session (kill : Nat → Option IoErr) (s : SessionState) :
    Except String Unit × SessionState × List Nat :=
  match s.persistent_child with
  | some child =>
      match kill child with
      | some err =>
          (Except.error err.msg, { s with persistent_child := none }, [child])
      | none =>
          (Except.ok (), { stdin := none, persistent_child := none }, [child])
  | none => (Except.ok (), { s with stdin := none }, [])

/-! ### Outbound JSON envelopes

`send_message` builds `serde_json::json!({"type": "user", "message":
{"role": "user", "content": message}})` and serializes it with
`serde_json::to_string`. The dependency tree enables serde_json's
`preserve_order` feature (tauri requires it), so keys serialize in literal
order; strings are escaped per serde_json: `"` and `\` get a backslash,
the control characters 0x08/0x09/0x0a/0x0c/0x0d become `\b`,`\t`,`\n`,`\f`,`\r`,
and other chars below 0x20 become lowercase `\u00XX`. -/

/-- Lowercase hex digit, as serde_json's escape table uses. -/
def hexDigit (n : Nat) : Char :=
  if n < 10 then Char.ofNat (48 + n) else Char.ofNat (87 + n)

/-- serde_json's escaping of one character inside a JSON string. -/
def escapeJsonChar (c : Char) : String :=
  if c = '"' then "\\\""
  else if c = '\\' then "\\\\"
  else if c = '\x08' then "\\b"
  else if c = '\x09' then "\\t"
  else if c = '\x0a' then "\\n"
  else if c = '\x0c' then "\\f"
  else if c = '\x0d' then "\\r"
  else if c.toNat < 0x20 then
    String.mk ['\\', 'u', '0', '0', hexDigit (c.toNat / 16), hexDigit (c.toNat % 16)]
  else String.singleton c

/-- serde_json serialization of a Rust string as a JSON string literal. -/
def jsonStringLit (s : String) : String :=
  "\"" ++ String.join (s.data.map escapeJsonChar) ++ "\""

/-- The serialized (newline-free) envelope `send_message` builds for a
given message text. -/
def send_message_json (message : String) : String :=
  "\x7b\"type\":\"user\",\"message\":\x7b\"role\":\"user\",\"content\":"
    ++ jsonStringLit message ++ "\x7d\x7d"

/-- The error message `send_message`/`send_response` return when no stdin
is installed. -/
def noStdinMsg : String :=
  "No stdin available - persistent session not established"

/-- `WorkspaceSession::send_message`. `write` is `ChildStdin::write_all`
(`none` = success, `some e` = the error's message); the returned list holds
the strings written to the stream, in order. -/
def send_message (write : String → Option String) (s : SessionState)
    (message : String) : Except String Unit × List String :=
  match s.stdin with
  | none => (Except.error noStdinMsg, [])
  | some _ =>
      let line := send_message_json message ++ "\n"
      match write line with
      | none => (Except.ok (), [line])
      | some e => (Except.error e, [line])

/-! ### Rust string/path helpers (`str::trim`, `split(':')`, `join(":")`) -/

/-- The ASCII part of Rust's `char::is_whitespace` (the inputs in the
claims are ASCII). -/
def isRustWS (c : Char) : Bool :=
  c = ' ' || c = '\x09' || c = '\x0a' || c = '\x0b' || c = '\x0c' || c = '\x0d'

/-- Rust `str::trim`. -/
def rustTrim (s : String) : String :=
  String.mk (((s.data.dropWhile isRustWS).reverse.dropWhile isRustWS).reverse)

/-- Rust `str::split(':')` (keeps empty pieces, as Rust's does). -/
def splitColonAux : List Char → List Char → List String
  | [], acc => [String.mk acc.reverse]
  | c :: rest, acc =>
      if c = ':' then String.mk acc.reverse :: splitColonAux rest []
      else splitColonAux rest (c :: acc)

def splitColon (s : String) : List String :=
  splitColonAux s.data []

/-- Rust `Vec::join(":")`. -/
def joinColon : List String → String
  | [] => ""
  | [x] => x
  | x :: y :: rest => x ++ ":" ++ joinColon (y :: rest)

/-! ### `build_claude_path_env` / `build_claude_command_with_bin`

Environment reads become parameters: `envPath` is `env::var("PATH")`
(unset = `""` via `unwrap_or_default`), `home` is `env::var("HOME")`,
`nvmBinDirs` are the `<entry>/bin` directories found under
`~/.nvm/versions/node` (scanned only when `HOME` is set), and `parentOf`
is `std::path::Path::parent` rendered through `to_string_lossy`. -/

/-- The de-duplicated path list `build_claude_path_env` assembles before
joining with `":"`. -/
def claudePathList (parentOf : String → Option String) (envPath : String)
    (home : Option String) (nvmBinDirs : List String)
    (claude_bin : Option String) : List String :=
  let paths := (splitColon envPath).filter (fun v => v ≠ "")
  let extras : List String :=
    ["/opt/homebrew/bin", "/usr/local/bin", "/usr/bin", "/bin", "/usr/sbin",
     "/sbin"]
  let extras := extras ++
    (match home with
     | some h =>
         [h ++ "/.local/bin", h ++ "/.local/share/mise/shims",
          h ++ "/.cargo/bin", h ++ "/.bun/bin"] ++ nvmBinDirs
     | none => [])
  let extras := extras ++
    (match claude_bin with
     | some b =>
         if rustTrim b ≠ "" then
           match parentOf b with
           | some parent => [parent]
           | none => []
         else []
     | none => [])
  extras.foldl (fun acc extra => if acc.contains extra then acc else acc ++ [extra]) paths

/-- `build_claude_path_env`: `None` when the assembled list is empty,
otherwise the colon-joined list. -/
def build_claude_path_env (parentOf : String → Option String)
    (envPath : String) (home : Option String) (nvmBinDirs : List String)
    (claude_bin : Option String) : Option String :=
  let paths := claudePathList parentOf envPath home nvmBinDirs claude_bin
  if paths = [] then none else some (joinColon paths)

/-- `Option::filter(|value| !value.trim().is_empty())`, the blank filter
applied to candidate binary paths. -/
def optFilterNonBlank (o : Option String) : Option String :=
  match o with
  | some v => if rustTrim v = "" then none else some v
  | none => none

/-- The program name `build_claude_command_with_bin` hands to
`Command::new`: the configured binary if non-blank, else `"claude"`. -/
def build_claude_command_bin (claude_bin : Option String) : String :=
  match optFilterNonBlank claude_bin with
  | some v => v
  | none => "claude"

/-- `spawn_workspace_session`'s binary resolution:
`entry.claude_bin.clone().filter(|v| !v.trim().is_empty()).or(default_claude_bin)`.
The result is passed to `check_claude_installation` and stored in the
session. -/
def resolve_claude_bin (entryBin defaultBin : Option String) : Option String :=
  match optFilterNonBlank entryBin with
  | some v => some v
  | none => defaultBin

/-! ### `check_claude_installation`

The probe's interaction with the OS is abstracted into one outcome value:
the `timeout(Duration::from_secs(5), command.output())` call either times
out, fails to spawn with some `io::Error`, or yields an `Output` with an
exit status and captured stdout/stderr. -/

/-- Timeout, in seconds, of the `--version` probe
(`Duration::from_secs(5)`). -/
def checkTimeoutSeconds : Nat := 5

/-- The single argument passed to the probed binary. -/
def versionFlag : String := "--version"

/-- Outcome of `timeout(5s, command.output())`. -/
inductive ProbeOutcome where
  | timedOut
  | spawnError (kind : ErrKind) (msg : String)
  | exited (success : Bool) (stdoutText stderrText : String)
deriving DecidableEq, Repr

def notFoundMsg : String :=
  "Claude Code CLI not found. Install Claude Code and ensure `claude` is on your PATH."

def timeoutMsg : String :=
  "Timed out while checking Claude Code CLI. Make sure `claude --version` runs in Terminal."

def failedNoDetailMsg : String :=
  "Claude Code CLI failed to start. Try running `claude --version` in Terminal."

def nonZeroExitMsg (detail : String) : String :=
  "Claude Code CLI failed to start: " ++ detail
    ++ ". Try running `claude --version` in Terminal."

/-- `check_claude_installation`, as a function of the probe outcome. -/
def check_claude_installation (o : ProbeOutcome) : Except String (Option String) :=
  match o with
  | ProbeOutcome.timedOut => Except.error timeoutMsg
  | ProbeOutcome.spawnError kind msg =>
      Except.error (if kind = ErrKind.notFound then notFoundMsg else msg)
  | ProbeOutcome.exited success out err =>
      if success then
        let version := rustTrim out
        Except.ok (if version = "" then none else some version)
      else
        let detail := if rustTrim err = "" then rustTrim out else rustTrim err
        if detail = "" then Except.error failedNoDetailMsg
        else Except.error (nonZeroExitMsg detail)

/-- `isHeadOfChars p s`: the char list `p` is an initial segment of `s`. -/
def isHeadOfChars : List Char → List Char → Bool
  | [], _ => true
  | _ :: _, [] => false
  | a :: as1, b :: bs => a = b && isHeadOfChars as1 bs

def strStarts (p s : String) : Bool :=
  isHeadOfChars p.data s.data

def strEnds (p s : String) : Bool :=
  isHeadOfChars p.data.reverse s.data.reverse

/-- The three error shapes the spec classifies for the installation check:
the not-found message, the timeout message, and the non-zero-exit message
carrying a diagnostic detail. -/
def isClassifiedInstallError (e : String) : Bool :=
  e = notFoundMsg || e = timeoutMsg ||
    (strStarts "Claude Code CLI failed to start: " e &&
     strEnds ". Try running `claude --version` in Terminal." e)

/-! ### Claim theorems: turn tracker -/

/-- C1: for every mapping state, `interrupt_turn(thread_id, turn_id)` with
no entry for `thread_id`, or with an entry whose stored turn identifier
differs from `turn_id`, returns success, leaves the entry for `thread_id`
exactly as it was (still absent, or reinserted unchanged), leaves every
other thread's entry untouched (the maps agree after removing `thread_id`),
and attempts no kill. -/
theorem interrupt_turn_stale_noop (kill : Nat → Option IoErr) (m : TurnMap)
    (thread_id turn_id : String)
    (h : ∀ a, lookupTurn m thread_id = some a → a.turn_id ≠ turn_id) :
    (interrupt_turn kill m thread_id turn_id).1 = Except.ok () ∧
    lookupTurn (interrupt_turn kill m thread_id turn_id).2.1 thread_id
      = lookupTurn m thread_id ∧
    removeTurn (interrupt_turn kill m thread_id turn_id).2.1 thread_id
      = removeTurn m thread_id ∧
    (interrupt_turn kill m thread_id turn_id).2.2 = [] := by
  cases hl : lookupTurn m thread_id with
  | none =>
      have hr := removeTurn_of_lookup_none m thread_id hl
      simp [interrupt_turn, hl, hr]
  | some a =>
      have hne : a.turn_id ≠ turn_id := h a hl
      simp [interrupt_turn, hl, hne, insertTurn, lookupTurn, removeTurn,
        removeTurn_removeTurn]

theorem interrupt_turn_stale_noop_witness :
    (interrupt_turn (fun _ => none) [("t", ⟨"a", 1⟩)] "t" "b").1 = Except.ok () ∧
    lookupTurn (interrupt_turn (fun _ => none) [("t", ⟨"a", 1⟩)] "t" "b").2.1 "t"
      = lookupTurn [("t", ⟨"a", 1⟩)] "t" ∧
    removeTurn (interrupt_turn (fun _ => none) [("t", ⟨"a", 1⟩)] "t" "b").2.1 "t"
      = removeTurn [("t", ⟨"a", 1⟩)] "t" ∧
    (interrupt_turn (fun _ => none) [("t", ⟨"a", 1⟩)] "t" "b").2.2 = [] :=
  interrupt_turn_stale_noop (fun _ => none) [("t", ⟨"a", 1⟩)] "t" "b" (by
    intro a ha
    simp [lookupTurn] at ha
    simp [← ha])

/-- C2: for every mapping state whose entry for `thread_id` stores
`turn_id`, `interrupt_turn(thread_id, turn_id)` removes that entry and
attempts a kill of exactly that entry's process; a successful kill and a
kill failing with `ErrorKind::InvalidInput` (already-exited process) both
yield success, and any other kill failure is returned as an error carrying
the failure's message. -/
theorem interrupt_turn_match_spec (kill : Nat → Option IoErr) (m : TurnMap)
    (thread_id : String) (a : ActiveTurn)
    (h : lookupTurn m thread_id = some a) :
    lookupTurn (interrupt_turn kill m thread_id a.turn_id).2.1 thread_id = none ∧
    (interrupt_turn kill m thread_id a.turn_id).2.2 = [a.child] ∧
    (kill a.child = none →
      (interrupt_turn kill m thread_id a.turn_id).1 = Except.ok ()) ∧
    (∀ e, kill a.child = some e → e.kind = ErrKind.invalidInput →
      (interrupt_turn kill m thread_id a.turn_id).1 = Except.ok ()) ∧
    (∀ e, kill a.child = some e → e.kind ≠ ErrKind.invalidInput →
      (interrupt_turn kill m thread_id a.turn_id).1 = Except.error e.msg) := by
  cases hk : kill a.child with
  | none =>
      simp [interrupt_turn, h, hk, lookupTurn_removeTurn]
  | some e =>
      by_cases he : e.kind = ErrKind.invalidInput <;>
        simp [interrupt_turn, h, hk, he, lookupTurn_removeTurn]

theorem interrupt_turn_match_spec_witness :
    lookupTurn (interrupt_turn (fun _ => none) [("t", ⟨"a", 2⟩)] "t" "a").2.1 "t"
      = none ∧
    (interrupt_turn (fun _ => none) [("t", ⟨"a", 2⟩)] "t" "a").2.2 = [2] ∧
    (interrupt_turn (fun _ => none) [("t", ⟨"a", 2⟩)] "t" "a").1 = Except.ok () := by
  have hspec := interrupt_turn_match_spec (fun _ => none) [("t", ⟨"a", 2⟩)]
    "t" ⟨"a", 2⟩ (by decide)
  exact ⟨hspec.1, hspec.2.1, hspec.2.2.1 rfl⟩

/-- C5: `clear_turn(thread_id, turn_id)` removes the entry for `thread_id`
exactly when one exists and stores `turn_id` (the result is the map with
that entry removed, and the lookup afterwards is `none`); when the stored
identifier differs or no entry exists, the mapping is returned unchanged.
The operation is total and returns only the mapping (no failure, nothing
else observable). -/
theorem clear_turn_spec (m : TurnMap) (thread_id turn_id : String) :
    ((∃ a, lookupTurn m thread_id = some a ∧ a.turn_id = turn_id) →
      clear_turn m thread_id turn_id = removeTurn m thread_id ∧
      lookupTurn (clear_turn m thread_id turn_id) thread_id = none) ∧
    ((∀ a, lookupTurn m thread_id = some a → a.turn_id ≠ turn_id) →
      clear_turn m thread_id turn_id = m) := by
  constructor
  · rintro ⟨a, hl, ht⟩
    constructor
    · simp [clear_turn, hl, ht]
    · simp [clear_turn, hl, ht, lookupTurn_removeTurn]
  · intro h
    cases hl : lookupTurn m thread_id with
    | none => simp [clear_turn, hl]
    | some a => simp [clear_turn, hl, h a hl]

theorem clear_turn_spec_witness :
    (clear_turn [("t", ⟨"a", 5⟩)] "t" "a" = removeTurn [("t", ⟨"a", 5⟩)] "t" ∧
      lookupTurn (clear_turn [("t", ⟨"a", 5⟩)] "t" "a") "t" = none) ∧
    clear_turn [("t", ⟨"a", 5⟩)] "t" "b" = [("t", ⟨"a", 5⟩)] :=
  ⟨(clear_turn_spec [("t", ⟨"a", 5⟩)] "t" "a").1 ⟨⟨"a", 5⟩, by decide, rfl⟩,
   (clear_turn_spec [("t", ⟨"a", 5⟩)] "t" "b").2 (by
      intro a ha
      simp [lookupTurn] at ha
      simp [← ha])⟩

/-! ### Claim theorems: persistent channel -/

/-- C3 counterexample: with a child and a stream installed and a kill that
fails (`Err` of any kind other than the swallowed one), the source's `?`
returns before `*self.stdin.lock().await = None` runs, so the stream
handle survives the failed shutdown and `has_persistent_session` is still
true — the claim that both handles are cleared unconditionally is false. -/
theorem kill_persistent_session_error_keeps_stdin :
    (kill_persistent_session (fun _ => some ⟨ErrKind.other, "boom"⟩)
        ⟨some 0, some 1⟩).1 = Except.error "boom" ∧
    (kill_persistent_session (fun _ => some ⟨ErrKind.other, "boom"⟩)
        ⟨some 0, some 1⟩).2.1.stdin = some 0 ∧
    has_persistent_session
      (kill_persistent_session (fun _ => some ⟨ErrKind.other, "boom"⟩)
        ⟨some 0, some 1⟩).2.1 = true :=
  ⟨rfl, rfl, rfl⟩

/-- C3 (amended): after `kill_persistent_session` returns, the persistent
process handle is always cleared; the stream handle is cleared whenever the
call returns success, but when the kill fails the error is returned with
the stream handle exactly as it was, so `has_persistent_session` need not
be false afterwards. -/
theorem kill_persistent_session_cleanup (kill : Nat → Option IoErr)
    (s : SessionState) :
    (kill_persistent_session kill s).2.1.persistent_child = none ∧
    ((kill_persistent_session kill s).1 = Except.ok () →
      (kill_persistent_session kill s).2.1.stdin = none) ∧
    (∀ e, (kill_persistent_session kill s).1 = Except.error e →
      (kill_persistent_session kill s).2.1.stdin = s.stdin) := by
  cases hc : s.persistent_child with
  | none => simp [kill_persistent_session, hc]
  | some c =>
      cases hk : kill c with
      | none => simp [kill_persistent_session, hc, hk]
      | some e => simp [kill_persistent_session, hc, hk]

theorem kill_persistent_session_cleanup_witness :
    (kill_persistent_session (fun _ => none)
        ⟨some 0, some 1⟩).2.1.persistent_child = none ∧
    (kill_persistent_session (fun _ => none) ⟨some 0, some 1⟩).2.1.stdin = none :=
  ⟨(kill_persistent_session_cleanup (fun _ => none) ⟨some 0, some 1⟩).1,
   (kill_persistent_session_cleanup (fun _ => none) ⟨some 0, some 1⟩).2.1 rfl⟩

/-- C4 counterexample: `kill_persistent_session` has no counterpart of
`interrupt_turn`'s `ErrorKind::InvalidInput` filter — a kill that fails
because the process already exited is surfaced to the caller, not treated
as success. -/
theorem kill_persistent_session_surfaces_already_exited :
    (kill_persistent_session
        (fun _ => some ⟨ErrKind.invalidInput, "Invalid argument (os error 22)"⟩)
        ⟨some 0, some 1⟩).1
      = Except.error "Invalid argument (os error 22)" := rfl

/-- C4 (amended): during `kill_persistent_session`, when a persistent
process handle is installed and the kill fails, every failure — including
the already-exited / invalid-input case — is returned as an error carrying
the failure's message; no kill error kind is swallowed here. -/
theorem kill_persistent_session_error_spec (kill : Nat → Option IoErr)
    (s : SessionState) (c : Nat) (e : IoErr)
    (h1 : s.persistent_child = some c) (h2 : kill c = some e) :
    (kill_persistent_session kill s).1 = Except.error e.msg := by
  simp [kill_persistent_session, h1, h2]

theorem kill_persistent_session_error_spec_witness :
    (kill_persistent_session (fun _ => some ⟨ErrKind.invalidInput, "x"⟩)
        ⟨some 0, some 1⟩).1 = Except.error "x" :=
  kill_persistent_session_error_spec (fun _ => some ⟨ErrKind.invalidInput, "x"⟩)
    ⟨some 0, some 1⟩ 1 ⟨ErrKind.invalidInput, "x"⟩ rfl rfl

/-- C7: starting from a session with no stream and no process handle,
two consecutive `kill_persistent_session` calls both succeed, attempt no
kill, and leave `has_persistent_session` false. -/
theorem kill_persistent_session_idempotent_empty (kill : Nat → Option IoErr)
    (s : SessionState) (h1 : s.stdin = none) (h2 : s.persistent_child = none) :
    (kill_persistent_session kill s).1 = Except.ok () ∧
    (kill_persistent_session kill s).2.2 = [] ∧
    (kill_persistent_session kill
        (kill_persistent_session kill s).2.1).1 = Except.ok () ∧
    (kill_persistent_session kill
        (kill_persistent_session kill s).2.1).2.2 = [] ∧
    has_persistent_session
      (kill_persistent_session kill
        (kill_persistent_session kill s).2.1).2.1 = false := by
  obtain ⟨st, pc⟩ := s
  simp only [SessionState.stdin] at h1
  simp only [SessionState.persistent_child] at h2
  subst h1
  subst h2
  simp [kill_persistent_session, has_persistent_session]

theorem kill_persistent_session_idempotent_empty_witness :
    (kill_persistent_session (fun _ => none) ⟨none, none⟩).1 = Except.ok () ∧
    (kill_persistent_session (fun _ => none) ⟨none, none⟩).2.2 = [] ∧
    (kill_persistent_session (fun _ => none)
        (kill_persistent_session (fun _ => none) ⟨none, none⟩).2.1).1
      = Except.ok () ∧
    (kill_persistent_session (fun _ => none)
        (kill_persistent_session (fun _ => none) ⟨none, none⟩).2.1).2.2 = [] ∧
    has_persistent_session
      (kill_persistent_session (fun _ => none)
        (kill_persistent_session (fun _ => none) ⟨none, none⟩).2.1).2.1 = false :=
  kill_persistent_session_idempotent_empty (fun _ => none) ⟨none, none⟩ rfl rfl

/-- C6: `send_message` fails with the "no active channel" message exactly
when no stdin is installed (given that the underlying stream write never
itself produces that message as its error text), writes nothing in that
case, and otherwise writes exactly one newline-terminated serialized
envelope; for the message `"hi"` that line is exactly
`{"type":"user","message":{"role":"user","content":"hi"}}` plus `\n`. -/
theorem send_message_spec (write : String → Option String) (s : SessionState)
    (message : String)
    (hw : ∀ l e, write l = some e → e ≠ noStdinMsg) :
    ((send_message write s message).1 = Except.error noStdinMsg ↔ s.stdin = none) ∧
    (s.stdin = none → (send_message write s message).2 = []) ∧
    (s.stdin ≠ none →
      (send_message write s message).2 = [send_message_json message ++ "\n"]) ∧
    send_message_json "hi"
      = "\x7b\"type\":\"user\",\"message\":\x7b\"role\":\"user\",\"content\":\"hi\"\x7d\x7d" := by
  refine ⟨?_, ?_, ?_, ?_⟩
  · cases hs : s.stdin with
    | none => simp [send_message, hs]
    | some h =>
        cases hwr : write (send_message_json message ++ "\n") with
        | none => simp [send_message, hs, hwr]
        | some e =>
            have he : e ≠ noStdinMsg := hw _ e hwr
            simp [send_message, hs, hwr, he]
  · intro hs
    simp [send_message, hs]
  · intro hs
    cases hs2 : s.stdin with
    | none => exact absurd hs2 hs
    | some h =>
        cases hwr : write (send_message_json message ++ "\n") with
        | none => simp [send_message, hs2, hwr]
        | some e => simp [send_message, hs2, hwr]
  · rfl

theorem send_message_spec_witness :
    (send_message (fun _ => none) ⟨some 0, none⟩ "hi").2
        = [send_message_json "hi" ++ "\n"] ∧
    send_message_json "hi"
      = "\x7b\"type\":\"user\",\"message\":\x7b\"role\":\"user\",\"content\":\"hi\"\x7d\x7d" := by
  have hspec := send_message_spec (fun _ => none) ⟨some 0, none⟩ "hi"
    (fun _ e h => Option.noConfusion h)
  exact ⟨hspec.2.2.1 (by simp), hspec.2.2.2⟩

/-! ### Claim theorems: installation check, path building, binary resolution -/

/-- C8 counterexample: the probe has a fourth error path the claim omits —
a spawn failure whose kind is not `NotFound` (e.g. a permission error on a
configured binary) is surfaced verbatim via `e.to_string()`, which is none
of the three classified messages (not-found, timeout, or the
non-zero-exit "failed to start: <detail>" shape). -/
theorem check_claude_installation_unclassified_error :
    check_claude_installation
        (ProbeOutcome.spawnError ErrKind.permissionDenied
          "Permission denied (os error 13)")
      = Except.error "Permission denied (os error 13)" ∧
    isClassifiedInstallError "Permission denied (os error 13)" = false :=
  ⟨rfl, by decide⟩

/-- C8 (amended): the probe runs `--version` under a fixed 5-second
timeout; on a successful exit it returns the trimmed stdout (None when
blank). On failure it returns: the not-found message when the spawn fails
with the not-found kind; the spawn error's own message verbatim for any
other spawn failure; the timeout message when the deadline passes; and on
a non-zero exit, the failed-to-start message carrying the trimmed stderr
(or stdout when stderr is blank), or a generic detail-free
failed-to-start message when both are blank. -/
theorem check_claude_installation_spec (o : ProbeOutcome) :
    checkTimeoutSeconds = 5 ∧
    versionFlag = "--version" ∧
    (∀ out err, o = ProbeOutcome.exited true out err →
      check_claude_installation o
        = Except.ok (if rustTrim out = "" then none else some (rustTrim out))) ∧
    (o = ProbeOutcome.timedOut →
      check_claude_installation o = Except.error timeoutMsg) ∧
    (∀ msg, o = ProbeOutcome.spawnError ErrKind.notFound msg →
      check_claude_installation o = Except.error notFoundMsg) ∧
    (∀ k msg, o = ProbeOutcome.spawnError k msg → k ≠ ErrKind.notFound →
      check_claude_installation o = Except.error msg) ∧
    (∀ out err, o = ProbeOutcome.exited false out err → rustTrim err ≠ "" →
      check_claude_installation o
        = Except.error (nonZeroExitMsg (rustTrim err))) ∧
    (∀ out err, o = ProbeOutcome.exited false out err → rustTrim err = "" →
      rustTrim out ≠ "" →
      check_claude_installation o
        = Except.error (nonZeroExitMsg (rustTrim out))) ∧
    (∀ out err, o = ProbeOutcome.exited false out err → rustTrim err = "" →
      rustTrim out = "" →
      check_claude_installation o = Except.error failedNoDetailMsg) := by
  refine ⟨rfl, rfl, ?_, ?_, ?_, ?_, ?_, ?_, ?_⟩
  · rintro out err rfl; rfl
  · rintro rfl; rfl
  · rintro msg rfl; rfl
  · rintro k msg rfl hk
    simp [check_claude_installation, hk]
  · rintro out err rfl h
    simp [check_claude_installation, h]
  · rintro out err rfl h1 h2
    simp [check_claude_installation, h1, h2]
  · rintro out err rfl h1 h2
    simp [check_claude_installation, h1, h2]

theorem check_claude_installation_spec_witness :
    check_claude_installation (ProbeOutcome.exited false "" " oops ")
      = Except.error (nonZeroExitMsg (rustTrim " oops ")) ∧
    rustTrim " oops " = "oops" :=
  ⟨(check_claude_installation_spec
      (ProbeOutcome.exited false "" " oops ")).2.2.2.2.2.2.1
      "" " oops " rfl (by decide),
    by decide⟩

/-- C9: with environment PATH `"/usr/bin"` and home `"/home/u"` (no nvm
directories, no explicit binary), the assembled path list starts with
`/usr/bin`, has no duplicate entries, contains `/home/u/.local/bin` exactly
once, and `build_claude_path_env` returns it colon-joined; the exactly-once
property also holds when `/home/u/.local/bin` is already present in the
input PATH. -/
theorem build_claude_path_env_spec :
    (claudePathList (fun _ => none) "/usr/bin" (some "/home/u") [] none).head?
        = some "/usr/bin" ∧
    (claudePathList (fun _ => none) "/usr/bin" (some "/home/u") [] none).Nodup ∧
    (claudePathList (fun _ => none) "/usr/bin" (some "/home/u") []
        none).count "/home/u/.local/bin" = 1 ∧
    build_claude_path_env (fun _ => none) "/usr/bin" (some "/home/u") [] none
      = some (joinColon
          (claudePathList (fun _ => none) "/usr/bin" (some "/home/u") [] none)) ∧
    (claudePathList (fun _ => none) "/usr/bin:/home/u/.local/bin"
        (some "/home/u") [] none).head? = some "/usr/bin" ∧
    (claudePathList (fun _ => none) "/usr/bin:/home/u/.local/bin"
        (some "/home/u") [] none).Nodup ∧
    (claudePathList (fun _ => none) "/usr/bin:/home/u/.local/bin"
        (some "/home/u") [] none).count "/home/u/.local/bin" = 1 :=
  ⟨by decide, by decide, by decide, by decide, by decide, by decide, by decide⟩

/-- C10 counterexample: a whitespace-only caller-supplied default binary
path is not normalized to "absent" by `spawn_workspace_session`'s
resolution — `.or(default_claude_bin)` is applied without the blank
filter, so the resolved value is `Some(" ")`, not `None`. -/
theorem resolve_claude_bin_keeps_blank_default :
    resolve_claude_bin none (some " ") = some " " ∧
    resolve_claude_bin none (some " ") ≠ none :=
  ⟨rfl, by decide⟩

/-- C10 (amended): the workspace entry's configured binary path takes
precedence over the default when non-blank; a blank (empty or
whitespace-only) configured path falls back to the default; a blank
default is kept verbatim in the resolved value (which is what the
installation check and the stored session receive), but command
construction re-applies the blank filter, so the program actually invoked
is the fallback `"claude"`, the same as with no path at all. -/
theorem resolve_claude_bin_spec (c d : String) (dflt : Option String) :
    (rustTrim c ≠ "" → resolve_claude_bin (some c) dflt = some c) ∧
    (rustTrim c = "" → resolve_claude_bin (some c) dflt = dflt) ∧
    resolve_claude_bin none dflt = dflt ∧
    (rustTrim d = "" →
      build_claude_command_bin (resolve_claude_bin none (some d))
          = build_claude_command_bin none ∧
      build_claude_command_bin (resolve_claude_bin none (some d)) = "claude") := by
  refine ⟨?_, ?_, rfl, ?_⟩
  · intro h
    simp [resolve_claude_bin, optFilterNonBlank, h]
  · intro h
    simp [resolve_claude_bin, optFilterNonBlank, h]
  · intro h
    constructor <;>
      simp [resolve_claude_bin, build_claude_command_bin, optFilterNonBlank, h]

theorem resolve_claude_bin_spec_witness :
    resolve_claude_bin (some "/x/claude") (some "/y/claude") = some "/x/claude" ∧
    resolve_claude_bin (some " ") (some "/y/claude") = some "/y/claude" ∧
    build_claude_command_bin (resolve_claude_bin none (some " ")) = "claude" :=
  ⟨(resolve_claude_bin_spec "/x/claude" "x" (some "/y/claude")).1 (by decide),
   (resolve_claude_bin_spec " " "x" (some "/y/claude")).2.1 (by decide),
   ((resolve_claude_bin_spec "x" " " (some "/y/claude")).2.2.2 (by decide)).2⟩
